import Mathlib

/-!
Shallow embedding of the dimension-indexing core of
`fastplotlib/widgets/image.py` (class `ImageWidget` and helper class
`_WindowFunctions`), together with theorems settling the specification
claims about that code.

Modelling conventions:
* numpy n-dimensional arrays are modelled as a shape (list of per-axis
  sizes) plus a value function from multi-indices to rationals;
* Python `dict`s are modelled as association lists with Python's
  replace-or-append update semantics (`dictSet`) and first-match lookup
  (`dictGet?`);
* Python exceptions are modelled with an error type `PyErr`; fallible
  operations return `Except PyErr _` or pair their result with
  `Option PyErr`;
* `np.inf` (the seed of the `_dims_max_bounds` computation) is modelled
  by `Option ℕ` with `none` standing for infinity;
* values supplied to the `current_index` setter are modelled by `PyVal`,
  whose `other` constructor stands for any non-`int` Python value;
* the GUI collaborators (ipywidgets sliders, plot canvas, ImageGraphic)
  are outside the embedding; the per-array frames pushed to the display
  surface are recorded in the `displayed` field of the widget state.
-/

/-- Python error classes raised by the embedded code. -/
inductive PyErr where
  | keyError
  | typeError
  | indexError
  | attrError
deriving DecidableEq

/-- A Python value passed as an index: an `int`, or anything else
(`other` stands for every non-integer value, rejected by `isinstance`). -/
inductive PyVal where
  | int (n : ℤ)
  | other
deriving DecidableEq

/-- The integer carried by a `PyVal`, meaningful only after the
`isinstance(val, int)` check has succeeded. -/
def PyVal.toInt : PyVal → ℤ
  | .int n => n
  | .other => 0

/-- Python dict assignment `d[k] = v`: replace the value of the first
entry with key `k`, or append a fresh entry at the end. -/
def dictSet {κ α : Type} [DecidableEq κ] : List (κ × α) → κ → α → List (κ × α)
  | [], k, v => [(k, v)]
  | (k', v') :: rest, k, v =>
      if k' = k then (k, v) :: rest else (k', v') :: dictSet rest k v

/-- Python dict lookup `d.get(k)`: first entry with key `k`, if any. -/
def dictGet? {κ α : Type} [DecidableEq κ] : List (κ × α) → κ → Option α
  | [], _ => none
  | (k', v') :: rest, k => if k' = k then some v' else dictGet? rest k

/-- An n-dimensional numeric array: a shape and a value function on
multi-indices (row-major storage is irrelevant to the indexing logic). -/
structure NDArray where
  shape : List ℕ
  val : List ℕ → ℚ

/-- The empty array, used as an out-of-range list default. -/
def NDArray.empty : NDArray := ⟨[], fun _ => 0⟩

/-- Insert value `k` at position `d` of a multi-index (inverse of
dropping axis `d`). -/
def insertAt : ℕ → ℕ → List ℕ → List ℕ
  | 0, k, ix => k :: ix
  | _ + 1, k, [] => [k]
  | d + 1, k, x :: ix => x :: insertAt d k ix

/-- Add offset `lo` to component `d` of a multi-index (slicing an axis
starting at `lo` shifts indices along that axis by `lo`). -/
def addAt : ℕ → ℕ → List ℕ → List ℕ
  | _, _, [] => []
  | 0, lo, x :: ix => (lo + x) :: ix
  | d + 1, lo, x :: ix => x :: addAt d lo ix

/-- numpy integer indexing `a[..., k, ...]` at axis `d`: drops the axis.
Negative `k` wraps around as `size + k`; an index outside
`[-size, size)` raises `IndexError`. -/
def NDArray.indexAxis? (a : NDArray) (d : ℕ) (k : ℤ) : Except PyErr NDArray :=
  let n := a.shape.getD d 0
  if -(n : ℤ) ≤ k ∧ k < n then
    .ok ⟨a.shape.eraseIdx d,
         fun ix => a.val (insertAt d (if k < 0 then (k + n).toNat else k.toNat) ix)⟩
  else .error .indexError

/-- numpy slicing `a[..., lo:hi, ...]` at axis `d` (also the effect of
indexing with an in-bounds `range(lo, hi)` object, which is how
`_process_indices` consumes the output of `_get_window_indices`). -/
def NDArray.sliceAxis (a : NDArray) (d lo hi : ℕ) : NDArray :=
  ⟨a.shape.set d (hi - lo), fun ix => a.val (addAt d lo ix)⟩

/-- numpy-style aggregation `func(a, axis=d)`: apply `f` to every fiber
along axis `d`, removing that axis (this models window functions such as
`np.mean` applied with an `axis` keyword). -/
def NDArray.reduceAxis (a : NDArray) (f : List ℚ → ℚ) (d : ℕ) : NDArray :=
  ⟨a.shape.eraseIdx d,
   fun ix => f ((List.range (a.shape.getD d 0)).map fun k => a.val (insertAt d k ix))⟩

/-- `np.mean` on a 1-dimensional fiber. -/
def npMean (xs : List ℚ) : ℚ := xs.sum / (xs.length : ℚ)

/-- One per-dimension entry of the indexing plan built by
`_process_indices`: the initial full slice `slice(None)`, a scalar
position, or the half-open `range(lo, hi)` produced by
`_get_window_indices`. -/
inductive IdxSel where
  | full
  | scalar (k : ℤ)
  | rng (lo hi : ℤ)
deriving DecidableEq

/-- A resolved per-dimension selection: keep the axis whole, drop it at
a checked nonnegative position, or keep a sub-range of it. -/
inductive RSel where
  | fullR
  | scalarR (k : ℕ)
  | rngR (lo len : ℕ)
deriving DecidableEq

/-- Resolve an indexing plan against a shape, performing numpy's bounds
check on every scalar entry (`IndexError` when an integer index falls
outside `[-size, size)`, or when there are more entries than axes). -/
def resolveSel : List IdxSel → List ℕ → Except PyErr (List RSel)
  | [], _ => .ok []
  | .full :: rest, _ :: s => do
      .ok (.fullR :: (← resolveSel rest s))
  | .scalar k :: rest, n :: s =>
      if -(n : ℤ) ≤ k ∧ k < n then do
        .ok (.scalarR (if k < 0 then (k + n).toNat else k.toNat) :: (← resolveSel rest s))
      else .error .indexError
  | .rng lo hi :: rest, _ :: s => do
      .ok (.rngR lo.toNat (hi.toNat - lo.toNat) :: (← resolveSel rest s))
  | _ :: _, [] => .error .indexError

/-- Shape of the result of applying a resolved indexing plan: scalar
entries drop their axis, range entries shrink it, trailing axes are
kept whole. -/
def keepShape : List RSel → List ℕ → List ℕ
  | [], s => s
  | _, [] => []
  | .fullR :: rest, n :: s => n :: keepShape rest s
  | .scalarR _ :: rest, _ :: s => keepShape rest s
  | .rngR _ len :: rest, _ :: s => len :: keepShape rest s

/-- Translate a multi-index of the result of a resolved indexing plan
back to a multi-index of the original array. -/
def mergeIdx : List RSel → List ℕ → List ℕ
  | [], ix => ix
  | .fullR :: rest, j :: ix => j :: mergeIdx rest ix
  | .fullR :: rest, [] => 0 :: mergeIdx rest []
  | .scalarR k :: rest, ix => k :: mergeIdx rest ix
  | .rngR lo _ :: rest, j :: ix => (lo + j) :: mergeIdx rest ix
  | .rngR lo _ :: rest, [] => lo :: mergeIdx rest []

/-- numpy basic indexing `array[tuple(indexer)]` for an indexer made of
scalars and full slices (the `window_funcs is None` branch of
`_process_indices`; a `range` entry cannot occur there and is given
slice semantics). -/
def applyIndexer (a : NDArray) (sel : List IdxSel) : Except PyErr NDArray := do
  let rsel ← resolveSel sel a.shape
  .ok ⟨keepShape rsel a.shape, fun ix => a.val (mergeIdx rsel ix)⟩

/-- Embedding of `_WindowFunctions` (image.py lines 45-80): an
aggregation function together with a normalized window size. -/
structure WindowFunctions where
  func : List ℚ → ℚ
  window_size : Option ℤ

/-- Embedding of the `_WindowFunctions.window_size` setter
(image.py lines 56-77) restricted to `None` and `int` inputs (any other
input raises `TypeError`, which no claim exercises).  Returns the stored
window size together with a flag recording whether the "invalid window
size" warning was emitted.  A value below 3 warns and stores `None`; an
even value is incremented by one. -/
def windowSizeSet : Option ℤ → Option ℤ × Bool
  | none => (none, false)
  | some ws =>
      if ws < 3 then (none, true)
      else if ws % 2 = 0 then (some (ws + 1), false)
      else (some ws, false)

/-- State of an `ImageWidget` relevant to the indexing core: the
displayed arrays, their dimensionality and per-array axis orders, the
slider axes, the live index mapping, the per-axis max bounds
(`none` = `np.inf`), the window specs, the per-array post-process
functions, and the frames last pushed to the display surface
(`none` records that Python `None` was pushed). -/
structure ImageWidget where
  data : List NDArray
  ndim : ℕ
  dims_order : List (List Char)
  slider_dims : List Char
  current_index : List (Char × ℤ)
  dims_max_bounds : List (Char × Option ℕ)
  window_funcs : Option (List (Char × Option WindowFunctions))
  frame_apply : List (ℕ × Option (NDArray → NDArray))
  displayed : List (Option NDArray)

/-- Python `min` against a bound that may be `np.inf`
(`min(inf, x) = x`). -/
def minBound : Option ℕ → ℤ → ℤ
  | none, x => x
  | some m, x => min (m : ℤ) x

/-- `list.index(c)` on an axis-order string: position of the first
occurrence of `c` (the callers only ever look up characters that are
present; on absence Python would raise `ValueError`, here the length is
returned). -/
def idxOfC : List Char → Char → ℕ
  | [], _ => 0
  | c :: rest, d => if c = d then 0 else idxOfC rest d + 1

/-- Embedding of `ImageWidget._get_window_indices` (image.py lines
728-755).  For a dimension with an enabled window spec the scalar
position `ix` is replaced by
`range(max(0, ix - half_window), min(max_bound, ix + half_window))`
with `half_window = (window_size - 1) / 2`; otherwise the scalar is
returned unchanged.  The `dims_max_bounds` lookup raises `KeyError`
when the axis has no recorded bound (unreachable for slider axes). -/
def getWindowIndices (st : ImageWidget) (data_ix dim : ℕ) (indices_dim : ℤ) :
    Except PyErr IdxSel :=
  match st.window_funcs with
  | none => .ok (.scalar indices_dim)
  | some wfs =>
    match dictGet? wfs ((st.dims_order.getD data_ix []).getD dim '~') with
    | none => .ok (.scalar indices_dim)
    | some none => .ok (.scalar indices_dim)
    | some (some wfn) =>
      match wfn.window_size with
      | none => .ok (.scalar indices_dim)
      | some ws =>
        if ws = 0 then .ok (.scalar indices_dim)
        else
          match dictGet? st.dims_max_bounds ((st.dims_order.getD data_ix []).getD dim '~') with
          | none => .error .keyError
          | some mb =>
              .ok (.rng (max 0 (indices_dim - (ws - 1) / 2))
                        (minBound mb (indices_dim + (ws - 1) / 2)))

/-- First loop of `_process_indices`: for every axis label in the index
mapping, resolve it to a numeric dimension of this array via its axis
order and pass the scalar through `_get_window_indices`. -/
def buildEntries (st : ImageWidget) (data_ix : ℕ) (order : List Char) :
    List (Char × ℤ) → Except PyErr (List (ℕ × IdxSel))
  | [] => .ok []
  | (dim, v) :: rest => do
      let nd := idxOfC order dim
      let sel ← getWindowIndices st data_ix nd v
      .ok ((nd, sel) :: (← buildEntries st data_ix order rest))

/-- Insertion of a value into an ascending list, the step of the stable
ascending sort performed by Python's `sorted`. -/
def insSorted (x : ℕ) : List ℕ → List ℕ
  | [] => [x]
  | y :: ys => if x ≤ y then x :: y :: ys else y :: insSorted x ys

/-- Python `sorted` on a list of numeric dimensions. -/
def sortNat (l : List ℕ) : List ℕ := l.foldr insSorted []

/-- Second loop of `_process_indices` (the `window_funcs is not None`
branch): process the selected numeric dimensions in ascending order,
shifting each by the number of axes already consumed (`dim - i`).  A
scalar entry drops its axis by integer indexing; a range entry selects
the window and reduces it with the axis's window function.  A non-scalar
entry for an axis with no window spec would make Python fail on the
`window_funcs[dim_str]` lookup (`KeyError`) or on `None.func`
(`AttributeError`); both paths are unreachable from
`_get_window_indices`. -/
def windowLoop (order : List Char) (wfs : List (Char × Option WindowFunctions))
    (indexer : List IdxSel) : List (ℕ × ℕ) → NDArray → Except PyErr NDArray
  | [], a => .ok a
  | (i, od) :: rest, a =>
    let dimStr := order.getD od '~'
    let d := od - i
    match indexer.getD od .full with
    | .scalar k => do windowLoop order wfs indexer rest (← a.indexAxis? d k)
    | .rng lo hi =>
      match dictGet? wfs dimStr with
      | none => .error .keyError
      | some none => .error .attrError
      | some (some wfn) =>
          windowLoop order wfs indexer rest
            ((a.sliceAxis d lo.toNat hi.toNat).reduceAxis wfn.func d)
    | .full =>
      match dictGet? wfs dimStr with
      | none => .error .keyError
      | some none => .error .attrError
      | some (some wfn) =>
          windowLoop order wfs indexer rest (a.reduceAxis wfn.func d)

/-- Embedding of `ImageWidget._process_indices` (image.py lines
650-726) for the array at position `data_ix` of `self.data` (the Python
method receives the array itself and recovers `data_ix` by identity
search over `self.data`; every caller passes an element of
`self.data`).  Builds the per-dimension indexing plan, then either
applies it directly (`window_funcs is None`) or runs the
dimension-by-dimension window loop. -/
def processIndices (st : ImageWidget) (data_ix : ℕ)
    (slice_indices : List (Char × ℤ)) : Except PyErr NDArray := do
  let array := st.data.getD data_ix NDArray.empty
  let order := st.dims_order.getD data_ix []
  let entries ← buildEntries st data_ix order slice_indices
  let indexer := entries.foldl (fun idxr p => idxr.set p.1 p.2)
                   (List.replicate st.ndim IdxSel.full)
  match st.window_funcs with
  | none => applyIndexer array indexer
  | some wfs => windowLoop order wfs indexer (sortNat (entries.map (·.1))).enum array

/-- Embedding of `ImageWidget._process_frame_apply` (image.py lines
757-761).  When `data_ix` has no entry the slice is returned unchanged;
when its entry holds a function the function's result is returned; when
its entry is `None` the Python body falls off the end and returns
`None`. -/
def processFrameApply (fa : List (ℕ × Option (NDArray → NDArray)))
    (a : NDArray) (data_ix : ℕ) : Option NDArray :=
  match dictGet? fa data_ix with
  | none => some a
  | some (some f) => some (f a)
  | some none => none

/-- The `frame_apply` constructor argument: absent, a single callable,
or a dict mapping array positions to callables (Python allows a `None`
value inside the dict to disable an entry). -/
inductive FrameApplySpec where
  | noSpec
  | single (f : NDArray → NDArray)
  | dict (d : List (ℕ × Option (NDArray → NDArray)))

/-- Embedding of the `frame_apply` initialization in
`ImageWidget.__init__` (image.py lines 417-439) for `n` data arrays:
no spec gives an empty dict; a single callable is stored under key `0`;
a dict is seeded with `dict.fromkeys(range(n))` (every array position
mapped to `None`) and then overwritten with the supplied entries. -/
def initFrameApply (n : ℕ) : FrameApplySpec → List (ℕ × Option (NDArray → NDArray))
  | .noSpec => []
  | .single f => [(0, some f)]
  | .dict d =>
      d.foldl (fun acc p => dictSet acc p.1 p.2)
        ((List.range n).foldl (fun acc i => dictSet acc i none) [])

/-- Validation loop of the `current_index` setter (image.py lines
140-147): entries are scanned in order; a non-`int` value raises
`TypeError`, a negative value raises `IndexError`, and a value
strictly greater than the axis's max bound raises `IndexError`
(note: equal to the bound is accepted). -/
def validateEntries (bounds : List (Char × Option ℕ)) :
    List (Char × PyVal) → Option PyErr
  | [] => none
  | (k, v) :: rest =>
    match v with
    | .other => some .typeError
    | .int n =>
      if n < 0 then some .indexError
      else
        match dictGet? bounds k with
        | none => some .keyError
        | some b =>
          match b with
          | none => validateEntries bounds rest
          | some m => if (m : ℤ) < n then some .indexError else validateEntries bounds rest

/-- The frame-update loop at the end of the `current_index` setter
(image.py lines 157-160): for each array in turn, extract the slice at
the stored index, post-process it and push it to the display surface;
an exception during extraction aborts the loop, leaving the widget
state as mutated so far. -/
def updateLoop (st : ImageWidget) : List ℕ → ImageWidget × Option PyErr
  | [] => (st, none)
  | i :: rest =>
    match processIndices st i st.current_index with
    | .error e => (st, some e)
    | .ok f =>
        updateLoop
          { st with displayed := st.displayed.set i (processFrameApply st.frame_apply f i) }
          rest

/-- Embedding of the `current_index` property setter (image.py lines
120-160).  An index key missing from the stored mapping raises
`KeyError`; then the entries are validated (`validateEntries`); on
success the supplied entries are merged into the stored mapping with
`dict.update`, the sliders are moved (GUI, outside the model, with the
`block_sliders` re-entrancy guard), and every array's frame is
recomputed and pushed. -/
def setCurrentIndex (st : ImageWidget) (index : List (Char × PyVal)) :
    ImageWidget × Option PyErr :=
  if index.all (fun p => (dictGet? st.current_index p.1).isSome) then
    match validateEntries st.dims_max_bounds index with
    | some e => (st, some e)
    | none =>
        updateLoop
          { st with current_index :=
              index.foldl (fun d p => dictSet d p.1 p.2.toInt) st.current_index }
          (List.range st.data.length)
  else (st, some .keyError)

/-- Python `min` against an `np.inf`-seeded accumulator. -/
def minOpt : Option ℕ → ℕ → Option ℕ
  | none, m => some m
  | some x, m => some (min x m)

/-- Embedding of the `_dims_max_bounds` computation in
`ImageWidget.__init__` (image.py lines 453-457): every slider dimension
is seeded with `np.inf` and then minimized over all arrays' sizes along
that dimension (located through each array's own axis order). -/
def initMaxBounds (data : List NDArray) (orders : List (List Char))
    (slider_dims : List Char) : List (Char × Option ℕ) :=
  (slider_dims.foldl (fun d k => dictSet d k (none : Option ℕ)) []).map
    fun p => (p.1, (data.zip orders).foldl
      (fun acc q => minOpt acc (q.1.shape.getD (idxOfC q.2 p.1) 0)) p.2)

/-- Embedding of the `_current_index` initialization in
`ImageWidget.__init__` (image.py line 449): the dict comprehension
`{sax: 0 for sax in self.slider_dims}`. -/
def zeroIndex (slider_dims : List Char) : List (Char × ℤ) :=
  slider_dims.foldl (fun d s => dictSet d s 0) []

/-- The per-array initial-frame loop of `ImageWidget.__init__`
(image.py lines 488-490 and 529-534): compute
`_process_indices(data[i], self._current_index)` for every array,
aborting construction on the first exception. -/
def initFrames (st : ImageWidget) (ci : List (Char × ℤ)) :
    List ℕ → Except PyErr (List NDArray)
  | [] => .ok []
  | i :: rest =>
    match processIndices st i ci with
    | .error e => .error e
    | .ok f =>
      match initFrames st ci rest with
      | .error e => .error e
      | .ok ys => .ok (f :: ys)

/-- Embedding of the state-construction tail of `ImageWidget.__init__`
(image.py lines 441-534) from already-parsed inputs: the argument
parsing and validation of `data`, `dims_order`, `slider_dims`,
`window_funcs` and `frame_apply` (lines 235-442, not exercised by the
claims about the constructed state) is assumed done, and this function
builds the index mapping, the max bounds, and the initial frames pushed
to the display surface.  An exception while extracting an initial frame
aborts construction with no widget produced. -/
def ImageWidget.build (data : List NDArray) (dims_order : List (List Char))
    (slider_dims : List Char)
    (window_funcs : Option (List (Char × Option WindowFunctions)))
    (frame_apply : List (ℕ × Option (NDArray → NDArray))) :
    Except PyErr ImageWidget :=
  let ci := zeroIndex slider_dims
  let pre : ImageWidget :=
    { data := data
      ndim := (data.getD 0 NDArray.empty).shape.length
      dims_order := dims_order
      slider_dims := slider_dims
      current_index := ci
      dims_max_bounds := initMaxBounds data dims_order slider_dims
      window_funcs := window_funcs
      frame_apply := frame_apply
      displayed := [] }
  match initFrames pre ci (List.range data.length) with
  | .error e => .error e
  | .ok frames => .ok { pre with displayed := frames.map some }

/-- Axis order "tzxy" (the default order for 4-dimensional data). -/
def tzxy : List Char := ['t', 'z', 'x', 'y']

/-- Axis order "txy" (the default order for 3-dimensional data). -/
def txy : List Char := ['t', 'x', 'y']

/-- Widget state for the end-to-end scenarios C1 and C9: a single 4D
array of shape (100, 10, 64, 64) with axis order "tzxy", slider axes
["t", "z"], value function `v`, and the given window specs.  The
`current_index` and `dims_max_bounds` fields hold exactly what
`ImageWidget.build` computes for these inputs. -/
def widget4d (v : List ℕ → ℚ)
    (wf : Option (List (Char × Option WindowFunctions))) : ImageWidget :=
  { data := [⟨[100, 10, 64, 64], v⟩]
    ndim := 4
    dims_order := [tzxy]
    slider_dims := ['t', 'z']
    current_index := [('t', 0), ('z', 0)]
    dims_max_bounds := [('t', some 100), ('z', some 10)]
    window_funcs := wf
    frame_apply := []
    displayed := [] }

/-- Value function of the concrete 4D array used to exhibit the window
off-by-one: 1 on the hyperplane t = 7, 0 elsewhere. -/
def vC1 : List ℕ → ℚ := fun ix => if ix.headD 0 = 7 then 1 else 0

/-- A 3D array of shape (2, 4, 4) (2 time points). -/
def arr3d : NDArray := ⟨[2, 4, 4], fun _ => 0⟩

/-- Widget displaying `arr3d` with a single slider axis "t" of max
bound 2 (the fields are exactly what `ImageWidget.build` computes). -/
def wSmall : ImageWidget :=
  { data := [arr3d]
    ndim := 3
    dims_order := [txy]
    slider_dims := ['t']
    current_index := [('t', 0)]
    dims_max_bounds := [('t', some 2)]
    window_funcs := none
    frame_apply := []
    displayed := [some arr3d] }

/-- A 4D array of shape (2, 3, 4, 4). -/
def arr4d : NDArray := ⟨[2, 3, 4, 4], fun _ => 0⟩

/-- Widget displaying `arr4d` with slider axes "t" and "z" (max bounds
2 and 3). -/
def wSmall2 : ImageWidget :=
  { data := [arr4d]
    ndim := 4
    dims_order := [tzxy]
    slider_dims := ['t', 'z']
    current_index := [('t', 0), ('z', 0)]
    dims_max_bounds := [('t', some 2), ('z', some 3)]
    window_funcs := none
    frame_apply := []
    displayed := [some arr4d] }

/-- Widget with a mean window of size 5 on axis "t" (max bound 100),
used to instantiate the window-index computation. -/
def wWin : ImageWidget :=
  { data := []
    ndim := 3
    dims_order := [txy]
    slider_dims := ['t']
    current_index := [('t', 0)]
    dims_max_bounds := [('t', some 100)]
    window_funcs := some [('t', some ⟨npMean, some 5⟩)]
    frame_apply := []
    displayed := [] }

/-- Minimal widget with slider axes "t" and "z" and no data arrays,
used to instantiate the `current_index` setter theorems. -/
def wIdx : ImageWidget :=
  { data := []
    ndim := 4
    dims_order := [tzxy]
    slider_dims := ['t', 'z']
    current_index := [('t', 0), ('z', 0)]
    dims_max_bounds := [('t', some 5), ('z', some 5)]
    window_funcs := none
    frame_apply := []
    displayed := [] }

/-- A single 3D array of shape (2, 3, 3), used to instantiate the
construction theorem. -/
def w10data : List NDArray := [⟨[2, 3, 3], fun _ => 0⟩]

/-- Lookup after a dict assignment: the assigned key reads the new
value, every other key is unaffected. -/
theorem dictGet?_dictSet {κ α : Type} [DecidableEq κ]
    (d : List (κ × α)) (k k' : κ) (v : α) :
    dictGet? (dictSet d k v) k' = if k' = k then some v else dictGet? d k' := by
  induction d with
  | nil => simp [dictSet, dictGet?, eq_comm]
  | cons p rest ih =>
    obtain ⟨k₀, v₀⟩ := p
    by_cases h₀ : k₀ = k
    · subst h₀
      by_cases h₁ : k₀ = k'
      · subst h₁; simp [dictSet, dictGet?]
      · simp [dictSet, dictGet?, h₁, Ne.symm h₁]
    · by_cases h₁ : k₀ = k'
      · subst h₁
        simp [dictSet, dictGet?, h₀, Ne.symm h₀]
      · simp [dictSet, dictGet?, h₀, h₁, ih]

/-- A left fold of dict assignments does not disturb keys it never
assigns. -/
theorem dictGet?_foldl_dictSet {κ α β : Type} [DecidableEq κ]
    (f : β → κ) (g : β → α) (l : List β) (init : List (κ × α)) (k : κ)
    (hk : k ∉ l.map f) :
    dictGet? (l.foldl (fun d p => dictSet d (f p) (g p)) init) k = dictGet? init k := by
  induction l generalizing init with
  | nil => rfl
  | cons p rest ih =>
    simp only [List.map_cons, List.mem_cons] at hk
    push_neg at hk
    simp only [List.foldl_cons]
    rw [ih _ hk.2, dictGet?_dictSet, if_neg hk.1]

/-- A left fold assigning the same value to every key of a list reads
back that value on the list's members and is invisible elsewhere. -/
theorem dictGet?_foldl_const {κ α : Type} [DecidableEq κ]
    (v : α) (l : List κ) (init : List (κ × α)) (k : κ) :
    dictGet? (l.foldl (fun d s => dictSet d s v) init) k =
      if k ∈ l then some v else dictGet? init k := by
  induction l generalizing init with
  | nil => simp
  | cons c rest ih =>
    simp only [List.foldl_cons, ih, dictGet?_dictSet, List.mem_cons]
    by_cases h₁ : k ∈ rest
    · simp [h₁]
    · by_cases h₂ : k = c <;> simp [h₁, h₂]

/-- Key membership after a dict assignment. -/
theorem mem_keys_dictSet {κ α : Type} [DecidableEq κ]
    (d : List (κ × α)) (k k' : κ) (v : α) :
    k' ∈ (dictSet d k v).map Prod.fst ↔ k' = k ∨ k' ∈ d.map Prod.fst := by
  induction d with
  | nil => simp [dictSet]
  | cons p rest ih =>
    obtain ⟨k₀, v₀⟩ := p
    by_cases h₀ : k₀ = k
    · subst h₀
      simp [dictSet]
    · simp only [dictSet, if_neg h₀, List.map_cons, List.mem_cons, ih]
      tauto

/-- Dict assignment preserves distinctness of keys. -/
theorem nodup_keys_dictSet {κ α : Type} [DecidableEq κ]
    (d : List (κ × α)) (k : κ) (v : α) (h : (d.map Prod.fst).Nodup) :
    ((dictSet d k v).map Prod.fst).Nodup := by
  induction d with
  | nil => simp [dictSet]
  | cons p rest ih =>
    obtain ⟨k₀, v₀⟩ := p
    simp only [List.map_cons, List.nodup_cons] at h
    by_cases h₀ : k₀ = k
    · subst h₀
      simpa [dictSet] using h
    · simp only [dictSet, if_neg h₀, List.map_cons, List.nodup_cons]
      refine ⟨fun hc => ?_, ih h.2⟩
      rcases (mem_keys_dictSet rest k k₀ v).mp hc with h₁ | h₁
      · exact h₀ h₁
      · exact h.1 h₁

/-- A left fold of dict assignments starting from a dict with distinct
keys yields a dict with distinct keys. -/
theorem nodup_keys_foldl_dictSet {κ α β : Type} [DecidableEq κ]
    (f : β → κ) (g : β → α) (l : List β) (init : List (κ × α))
    (h : (init.map Prod.fst).Nodup) :
    ((l.foldl (fun d p => dictSet d (f p) (g p)) init).map Prod.fst).Nodup := by
  induction l generalizing init with
  | nil => exact h
  | cons p rest ih =>
    exact ih _ (nodup_keys_dictSet _ _ _ h)

/-- A left fold assigning a constant value, starting from a dict with
distinct keys, yields a dict with distinct keys. -/
theorem nodup_keys_foldl_const {κ α : Type} [DecidableEq κ]
    (v : α) (l : List κ) (init : List (κ × α))
    (h : (init.map Prod.fst).Nodup) :
    ((l.foldl (fun d s => dictSet d s v) init).map Prod.fst).Nodup := by
  induction l generalizing init with
  | nil => exact h
  | cons c rest ih =>
    exact ih _ (nodup_keys_dictSet _ _ _ h)

/-- The validation loop of the `current_index` setter scans entries in
order: a clean prefix does not affect the verdict on the rest. -/
theorem validateEntries_append (b : List (Char × Option ℕ))
    (pre xs : List (Char × PyVal)) (h : validateEntries b pre = none) :
    validateEntries b (pre ++ xs) = validateEntries b xs := by
  induction pre with
  | nil => rfl
  | cons p rest ih =>
    obtain ⟨k, v⟩ := p
    match v with
    | .other => simp [validateEntries] at h
    | .int n =>
      simp only [validateEntries, List.cons_append] at h ⊢
      by_cases hn : n < 0
      · simp [hn] at h
      · simp only [if_neg hn] at h ⊢
        match hb : dictGet? b k with
        | none => simp [hb] at h
        | some none => simp [hb] at h ⊢; exact ih h
        | some (some m) =>
          simp only [hb] at h ⊢
          by_cases hm : (m : ℤ) < n
          · simp [hm] at h
          · simp only [if_neg hm] at h ⊢
            exact ih h

/-- The frame-update loop at the end of the `current_index` setter
never touches the stored index mapping. -/
theorem updateLoop_current_index (l : List ℕ) (st : ImageWidget) :
    (updateLoop st l).1.current_index = st.current_index := by
  induction l generalizing st with
  | nil => rfl
  | cons i rest ih =>
    simp only [updateLoop]
    match processIndices st i st.current_index with
    | .error e => rfl
    | .ok f => exact ih _

/-- The initial-frame loop of construction: on success it produces one
frame per processed position, each the successful result of
`_process_indices` at that position. -/
theorem initFrames_spec (st : ImageWidget) (ci : List (Char × ℤ))
    (l : List ℕ) (ys : List NDArray) (h : initFrames st ci l = .ok ys) :
    ys.length = l.length ∧
    ∀ j, j < l.length → ∃ f, processIndices st (l.getD j 0) ci = .ok f ∧
      (ys.map some).getD j none = some f := by
  induction l generalizing ys with
  | nil =>
    simp only [initFrames] at h
    cases h
    exact ⟨rfl, fun j hj => absurd hj (by simp)⟩
  | cons i rest ih =>
    simp only [initFrames] at h
    cases h1 : processIndices st i ci with
    | error e => rw [h1] at h; cases h
    | ok f =>
      rw [h1] at h
      cases h2 : initFrames st ci rest with
      | error e => rw [h2] at h; cases h
      | ok ys' =>
        rw [h2] at h
        cases h
        obtain ⟨hlen, hrest⟩ := ih ys' h2
        refine ⟨by simp [hlen], fun j hj => ?_⟩
        match j with
        | 0 => exact ⟨f, h1, rfl⟩
        | j + 1 =>
          simp only [List.length_cons, Nat.add_lt_add_iff_right] at hj
          obtain ⟨g, hg, hg'⟩ := hrest j hj
          exact ⟨g, hg, hg'⟩

/-- Element `j` of `List.range n`. -/
theorem range_getD (n j : ℕ) (h : j < n) : (List.range n).getD j 0 = j := by
  simp [List.getD, List.getElem?_range, h]

/-- C6: for every integer window size `w`, the `_WindowFunctions`
window-size setter stores `w` when `w ≥ 3` and odd, `w + 1` when
`w ≥ 3` and even, and disables the window (stores `None`) with a
warning rather than an error when `w < 3`. -/
theorem c6_window_size_normalization (w : ℤ) :
    (3 ≤ w → w % 2 = 1 → windowSizeSet (some w) = (some w, false)) ∧
    (3 ≤ w → w % 2 = 0 → windowSizeSet (some w) = (some (w + 1), false)) ∧
    (w < 3 → windowSizeSet (some w) = (none, true)) := by
  refine ⟨fun h3 hodd => ?_, fun h3 heven => ?_, fun hlt => ?_⟩
  · simp only [windowSizeSet, if_neg (by omega : ¬w < 3), if_neg (by omega : ¬w % 2 = 0)]
  · simp only [windowSizeSet, if_neg (by omega : ¬w < 3), if_pos heven]
  · simp only [windowSizeSet, if_pos hlt]

/-- Witness for C6 at window sizes 5 (odd, kept), 4 (even, bumped to 5)
and 2 (too small, disabled with a warning). -/
theorem c6_window_size_normalization_witness :
    windowSizeSet (some 5) = (some 5, false) ∧
    windowSizeSet (some 4) = (some 5, false) ∧
    windowSizeSet (some 2) = (none, true) :=
  ⟨(c6_window_size_normalization 5).1 (by norm_num) (by norm_num),
   (c6_window_size_normalization 4).2.1 (by norm_num) (by norm_num),
   (c6_window_size_normalization 2).2.2 (by norm_num)⟩

/-- C4 fails on the code: when `frame_apply` is configured as a dict
that does not mention an array, that array's entry is seeded with
`None` by `dict.fromkeys`, and `_process_frame_apply` then falls off
the end of its body and returns `None` instead of the unchanged slice.
Here: two arrays, `frame_apply = {0: identity}`; the slice of array 1
comes back as `None`, while array 0 (with a configured function) and
the no-`frame_apply` configuration behave as the claim states. -/
theorem c4_frame_apply_missing_return :
    initFrameApply 2 (.dict [(0, some fun a => a)]) =
      [(0, some fun a => a), (1, none)] ∧
    processFrameApply (initFrameApply 2 (.dict [(0, some fun a => a)])) arr3d 1 = none ∧
    (∀ a : NDArray, processFrameApply (initFrameApply 2 (.dict [(0, some fun x => x)])) a 0 = some a) ∧
    (∀ a : NDArray, processFrameApply (initFrameApply 2 .noSpec) a 1 = some a) :=
  ⟨rfl, rfl, fun a => rfl, fun a => rfl⟩

/-- C9: on a widget showing one 4D array of shape (100, 10, 64, 64)
with axis order "tzxy", slider axes ["t", "z"] and no window functions,
`_process_indices` at index `{"t": 5, "z": 3}` returns the
(64, 64) plane `array[5, 3, :, :]` (the widget's `current_index` and
`_dims_max_bounds` fields are certified against their construction
code by the first two conjuncts). -/
theorem c9_slice_extraction_no_window (v : List ℕ → ℚ) :
    zeroIndex ['t', 'z'] = (widget4d v none).current_index ∧
    initMaxBounds (widget4d v none).data (widget4d v none).dims_order ['t', 'z'] =
      (widget4d v none).dims_max_bounds ∧
    ∃ r, processIndices (widget4d v none) 0 [('t', 5), ('z', 3)] = .ok r ∧
      r.shape = [64, 64] ∧ ∀ i j : ℕ, r.val [i, j] = v [5, 3, i, j] :=
  ⟨rfl, rfl, _, rfl, rfl, fun i j => rfl⟩

/-- C1 fails on the code: with window spec `{"t": (mean, 5)}` and index
`{"t": 5, "z": 3}`, `_get_window_indices` produces the half-open
`range(3, 7)`, so `_process_indices` averages only the four planes
`array[3:7, 3, :, :]` instead of the five planes `array[3:8, 3, :, :]`
demanded by the claim.  On the concrete array `vC1` (1 on the
hyperplane t = 7, 0 elsewhere) the code returns 0 at pixel (0, 0)
while the claimed five-plane mean is 1/5. -/
theorem c1_window_mean_off_by_one :
    ∃ r, processIndices (widget4d vC1 (some [('t', some ⟨npMean, some 5⟩)])) 0
        [('t', 5), ('z', 3)] = .ok r ∧
      r.shape = [64, 64] ∧
      r.val [0, 0] = npMean [vC1 [3,3,0,0], vC1 [4,3,0,0], vC1 [5,3,0,0], vC1 [6,3,0,0]] ∧
      npMean [vC1 [3,3,0,0], vC1 [4,3,0,0], vC1 [5,3,0,0], vC1 [6,3,0,0]] = 0 ∧
      npMean [vC1 [3,3,0,0], vC1 [4,3,0,0], vC1 [5,3,0,0], vC1 [6,3,0,0], vC1 [7,3,0,0]] = 1/5 ∧
      (0 : ℚ) ≠ 1/5 :=
  ⟨_, rfl, rfl, rfl, by norm_num [npMean, vC1], by norm_num [npMean, vC1], by norm_num⟩

/-- C2 fails on the code: the setter's bound check is
`val > self._dims_max_bounds[k]`, so a value *equal* to the max bound
is accepted and stored even though it lies outside
`[0, max_bound - 1]`.  Concretely, on a widget whose array has size 2
along "t" (so `max_bound("t") = 2`, certified by the last conjunct),
the write `{"t": 2}` passes validation and is stored; the `IndexError`
only surfaces afterwards, from the array indexing in the frame-update
loop. -/
theorem c2_bound_check_off_by_one :
    validateEntries wSmall.dims_max_bounds [('t', PyVal.int 2)] = none ∧
    dictGet? (setCurrentIndex wSmall [('t', PyVal.int 2)]).1.current_index 't' = some 2 ∧
    (setCurrentIndex wSmall [('t', PyVal.int 2)]).2 = some PyErr.indexError ∧
    initMaxBounds [arr3d] [txy] ['t'] = [('t', some 2)] :=
  ⟨rfl, rfl, rfl, rfl⟩

/-- C5 fails on the code: a write whose value equals the max bound
passes the setter's own validation, is merged into `current_index`,
and only then raises `IndexError` from the frame recomputation —
so an error-signalling write can leave the stored mapping changed.
Concretely, on a widget with bounds t = 2 and z = 3, the write
`{"z": 1, "t": 2}` (the "z" entry is valid) raises `IndexError` while
`current_index` has already moved from `{"t": 0, "z": 0}` to
`{"t": 2, "z": 1}`. -/
theorem c5_error_write_mutates_state :
    (setCurrentIndex wSmall2 [('z', PyVal.int 1), ('t', PyVal.int 2)]).2 =
      some PyErr.indexError ∧
    dictGet? (setCurrentIndex wSmall2 [('z', PyVal.int 1), ('t', PyVal.int 2)]).1.current_index 't' =
      some 2 ∧
    dictGet? (setCurrentIndex wSmall2 [('z', PyVal.int 1), ('t', PyVal.int 2)]).1.current_index 'z' =
      some 1 ∧
    dictGet? wSmall2.current_index 't' = some 0 ∧
    dictGet? wSmall2.current_index 'z' = some 0 ∧
    initMaxBounds [arr4d] [tzxy] ['t', 'z'] = [('t', some 2), ('z', some 3)] :=
  ⟨rfl, rfl, rfl, rfl, rfl, rfl⟩

/-- C3: for a slider axis with an enabled window spec of window size
`ws`, `_get_window_indices` replaces the scalar position `ix` with the
half-open range `[max(0, ix - h), min(max_bound, ix + h))` where
`h = (ws - 1) / 2`; in particular position 0 with window size 5 gives
the range `[0, 2)`, clamped at the lower bound. -/
theorem c3_window_index_clamping (st : ImageWidget) (data_ix dim : ℕ) (ix : ℤ)
    (wfs : List (Char × Option WindowFunctions)) (wfn : WindowFunctions)
    (ws : ℤ) (n : ℕ) (c : Char)
    (hwf : st.window_funcs = some wfs)
    (hc : (st.dims_order.getD data_ix []).getD dim '~' = c)
    (hfn : dictGet? wfs c = some (some wfn))
    (hws : wfn.window_size = some ws) (hws0 : ws ≠ 0)
    (hb : dictGet? st.dims_max_bounds c = some (some n)) :
    getWindowIndices st data_ix dim ix =
      .ok (.rng (max 0 (ix - (ws - 1) / 2)) (min (n : ℤ) (ix + (ws - 1) / 2))) ∧
    (ix = 0 → ws = 5 → 2 ≤ (n : ℤ) →
      getWindowIndices st data_ix dim ix = .ok (.rng 0 2)) := by
  have h1 : getWindowIndices st data_ix dim ix =
      .ok (.rng (max 0 (ix - (ws - 1) / 2)) (min (n : ℤ) (ix + (ws - 1) / 2))) := by
    simp only [getWindowIndices, hwf, hc, hfn, hws, if_neg hws0, hb, minBound]
  refine ⟨h1, fun h0 h5 hn => ?_⟩
  subst h0; subst h5
  rw [h1]
  have ha : max 0 ((0 : ℤ) - (5 - 1) / 2) = 0 := by decide
  have hb2 : min (n : ℤ) ((0 : ℤ) + (5 - 1) / 2) = 2 := by
    rw [min_eq_right (by omega : ((0 : ℤ) + (5 - 1) / 2) ≤ (n : ℤ))]
    decide
  rw [ha, hb2]

/-- Witness for C3 on a widget with a mean window of size 5 on axis
"t" (max bound 100): position 0 is replaced by the range `[0, 2)`. -/
theorem c3_window_index_clamping_witness :
    getWindowIndices wWin 0 0 0 = .ok (.rng 0 2) :=
  (c3_window_index_clamping wWin 0 0 0 [('t', some ⟨npMean, some 5⟩)]
    ⟨npMean, some 5⟩ 5 100 't' rfl rfl rfl rfl (by norm_num) rfl).2 rfl rfl (by norm_num)

/-- C7: a `current_index` write with a key outside the declared slider
axes signals `KeyError`; with all keys known, the first offending entry
(after a clean prefix) signals `TypeError` when its value is not an
integer and `IndexError` when its value is negative. -/
theorem c7_setter_error_classes (st : ImageWidget) (index : List (Char × PyVal)) :
    ((∃ p ∈ index, dictGet? st.current_index p.1 = none) →
      (setCurrentIndex st index).2 = some PyErr.keyError) ∧
    (∀ pre k rest,
      index.all (fun p => (dictGet? st.current_index p.1).isSome) = true →
      index = pre ++ (k, PyVal.other) :: rest →
      validateEntries st.dims_max_bounds pre = none →
      (setCurrentIndex st index).2 = some PyErr.typeError) ∧
    (∀ pre k n rest,
      index.all (fun p => (dictGet? st.current_index p.1).isSome) = true →
      index = pre ++ (k, PyVal.int n) :: rest → n < 0 →
      validateEntries st.dims_max_bounds pre = none →
      (setCurrentIndex st index).2 = some PyErr.indexError) := by
  refine ⟨fun hex => ?_, fun pre k rest hall hidx hpre => ?_,
    fun pre k n rest hall hidx hn hpre => ?_⟩
  · obtain ⟨p, hp, hnone⟩ := hex
    have hall : ¬ index.all (fun p => (dictGet? st.current_index p.1).isSome) = true := by
      intro hc
      have := List.all_eq_true.mp hc p hp
      rw [hnone] at this
      exact Bool.noConfusion this
    simp only [setCurrentIndex, if_neg hall]
  · subst hidx
    simp only [setCurrentIndex, if_pos hall,
      validateEntries_append _ _ _ hpre, validateEntries]
  · subst hidx
    simp only [setCurrentIndex, if_pos hall,
      validateEntries_append _ _ _ hpre, validateEntries, if_pos hn]

/-- Witness for C7 on a two-axis widget: an unknown key "q" gives
`KeyError`, a non-integer value for "t" gives `TypeError`, and a
negative value for "t" gives `IndexError`. -/
theorem c7_setter_error_classes_witness :
    (setCurrentIndex wIdx [('q', PyVal.int 0)]).2 = some PyErr.keyError ∧
    (setCurrentIndex wIdx [('t', PyVal.other)]).2 = some PyErr.typeError ∧
    (setCurrentIndex wIdx [('t', PyVal.int (-1))]).2 = some PyErr.indexError :=
  ⟨(c7_setter_error_classes wIdx [('q', PyVal.int 0)]).1
      ⟨('q', PyVal.int 0), by simp, rfl⟩,
   (c7_setter_error_classes wIdx [('t', PyVal.other)]).2.1 [] 't' [] rfl rfl rfl,
   (c7_setter_error_classes wIdx [('t', PyVal.int (-1))]).2.2 [] 't' (-1) []
      rfl rfl (by norm_num) rfl⟩

/-- C8: a valid `current_index` write that mentions only some slider
axes merges into the stored mapping: every key it does not mention
keeps its previously stored value. -/
theorem c8_subset_write_merges (st : ImageWidget) (index : List (Char × PyVal))
    (hall : index.all (fun p => (dictGet? st.current_index p.1).isSome) = true)
    (hval : validateEntries st.dims_max_bounds index = none)
    (k : Char) (hk : k ∉ index.map Prod.fst) :
    dictGet? (setCurrentIndex st index).1.current_index k =
      dictGet? st.current_index k := by
  simp only [setCurrentIndex, if_pos hall, hval]
  rw [updateLoop_current_index]
  exact dictGet?_foldl_dictSet Prod.fst (fun p => p.2.toInt) index st.current_index k hk

/-- Witness for C8: writing `{"t": 1}` on a widget with slider axes
"t" and "z" leaves the stored position of "z" at 0. -/
theorem c8_subset_write_merges_witness :
    dictGet? (setCurrentIndex wIdx [('t', PyVal.int 1)]).1.current_index 'z' = some 0 :=
  (c8_subset_write_merges wIdx [('t', PyVal.int 1)] rfl rfl 'z' (by simp)).trans rfl

/-- `_get_window_indices` reads only the window specs, the axis orders
and the max bounds of the widget state. -/
theorem getWindowIndices_congr (st st' : ImageWidget)
    (hord : st'.dims_order = st.dims_order)
    (hwf : st'.window_funcs = st.window_funcs)
    (hmb : st'.dims_max_bounds = st.dims_max_bounds) :
    getWindowIndices st' = getWindowIndices st := by
  funext data_ix dim ix
  simp only [getWindowIndices, hord, hwf, hmb]

/-- The indexing-plan loop reads only the window specs, the axis orders
and the max bounds of the widget state. -/
theorem buildEntries_congr (st st' : ImageWidget)
    (hord : st'.dims_order = st.dims_order)
    (hwf : st'.window_funcs = st.window_funcs)
    (hmb : st'.dims_max_bounds = st.dims_max_bounds)
    (data_ix : ℕ) (order : List Char) (si : List (Char × ℤ)) :
    buildEntries st' data_ix order si = buildEntries st data_ix order si := by
  induction si with
  | nil => rfl
  | cons p rest ih =>
    simp only [buildEntries, getWindowIndices_congr st st' hord hwf hmb, ih]

/-- `_process_indices` does not read the frames already pushed to the
display surface: two widget states agreeing on data, dimensionality,
axis orders, window specs and max bounds extract identical slices. -/
theorem processIndices_congr (st st' : ImageWidget)
    (hdata : st'.data = st.data) (hnd : st'.ndim = st.ndim)
    (hord : st'.dims_order = st.dims_order)
    (hwf : st'.window_funcs = st.window_funcs)
    (hmb : st'.dims_max_bounds = st.dims_max_bounds)
    (data_ix : ℕ) (si : List (Char × ℤ)) :
    processIndices st' data_ix si = processIndices st data_ix si := by
  simp only [processIndices, hdata, hnd, hord, hwf,
    buildEntries_congr st st' hord hwf hmb]

/-- C10: every successful construction stores a current index with
exactly one entry per declared slider axis, each at position 0, and
pushes, for every array, the slice extracted at that all-zero index as
the initially displayed frame. -/
theorem c10_construction_invariant (data : List NDArray)
    (orders : List (List Char)) (sd : List Char)
    (wf : Option (List (Char × Option WindowFunctions)))
    (fa : List (ℕ × Option (NDArray → NDArray))) (w : ImageWidget)
    (h : ImageWidget.build data orders sd wf fa = .ok w) :
    (∀ s ∈ sd, dictGet? w.current_index s = some 0) ∧
    (∀ s, s ∉ sd → dictGet? w.current_index s = none) ∧
    (w.current_index.map Prod.fst).Nodup ∧
    w.displayed.length = data.length ∧
    (∀ i, i < data.length → ∃ f, processIndices w i w.current_index = .ok f ∧
      w.displayed.getD i none = some f) := by
  simp only [ImageWidget.build] at h
  split at h
  · exact absurd h (by simp)
  · next frames heq =>
    rw [Except.ok.injEq] at h
    subst h
    refine ⟨fun s hs => ?_, fun s hs => ?_, ?_, ?_, fun i hi => ?_⟩
    · have hfold := dictGet?_foldl_const (0 : ℤ) sd [] s
      rw [if_pos hs] at hfold
      exact hfold
    · have hfold := dictGet?_foldl_const (0 : ℤ) sd [] s
      rw [if_neg hs] at hfold
      exact hfold
    · exact nodup_keys_foldl_const (0 : ℤ) sd [] (by simp)
    · have hl := (initFrames_spec _ _ _ _ heq).1
      simp only [List.length_range] at hl
      show (frames.map some).length = data.length
      simpa using hl
    · obtain ⟨f, hf, hd⟩ :=
        (initFrames_spec _ _ _ _ heq).2 i (by simpa using hi)
      rw [range_getD _ _ hi] at hf
      refine ⟨f, ?_, hd⟩
      have h2 :=
        (processIndices_congr
          { data := data, ndim := (data.getD 0 NDArray.empty).shape.length,
            dims_order := orders, slider_dims := sd, current_index := zeroIndex sd,
            dims_max_bounds := initMaxBounds data orders sd, window_funcs := wf,
            frame_apply := fa, displayed := [] }
          { data := data, ndim := (data.getD 0 NDArray.empty).shape.length,
            dims_order := orders, slider_dims := sd, current_index := zeroIndex sd,
            dims_max_bounds := initMaxBounds data orders sd, window_funcs := wf,
            frame_apply := fa, displayed := List.map some frames }
          rfl rfl rfl rfl rfl i (zeroIndex sd)).trans hf
      exact h2

/-- Witness for C10: constructing a widget on one (2, 3, 3) array with
slider axis "t" succeeds, and the stored index maps "t" to 0. -/
theorem c10_construction_invariant_witness :
    ∃ w, ImageWidget.build w10data [txy] ['t'] none [] = .ok w ∧
      dictGet? w.current_index 't' = some 0 :=
  ⟨_, rfl, (c10_construction_invariant w10data [txy] ['t'] none [] _ rfl).1 't' (by simp)⟩
